import Mathlib

set_option maxRecDepth 4000000

/-!
Verification development for the payroll computation engine of `app.py`
(manpower-render-final).

The engine is embedded shallowly:
* times of day are minutes since midnight (`ℕ`, 0 ≤ m < 1440);
* calendar dates are day numbers (`ℕ`); the weekday of day `d` is `d % 7`,
  so an employee's designated rest day is a number in `0..6` (the source
  compares `strftime('%A')` names; weekday-of-date is periodic with
  period 7, which `d % 7` captures exactly);
* Python floats are modelled as exact rationals (`ℚ`); all quantities the
  claims concern are small decimal fractions that floats also represent
  exactly, or are compared only structurally;
* the `Holiday` database table is a function `ℕ → Option HolidayType`;
* the `TimeEntry` table restricted to one employee is a `List TimeEntry`,
  and `get_holiday_type_for_date` / the entry lookup become pure lookups.

The summary returned by `compute_payroll_for_employee` is modelled before
the final `round(·, 2)` display rounding of the source (the source rounds
only at summary assembly; every claim here concerns the full-precision
accumulated values).
-/

/-- Holiday kinds, from the `Holiday` model: `type` is `'REGULAR'` or
`'SPECIAL'`. -/
inductive HolidayType where
  | REGULAR
  | SPECIAL
deriving DecidableEq, Repr

/-- One row of the `TimeEntry` model for a fixed employee: a date and the
optional clock-in / clock-out times (minutes since midnight). -/
structure TimeEntry where
  date : ℕ
  time_in : Option ℕ
  time_out : Option ℕ
deriving DecidableEq, Repr

/-- The fields of the `Employee` model the engine reads. `rest_day` is the
weekday index of the designated rest day. -/
structure Employee where
  id : ℕ
  name : String
  monthly_salary : ℚ
  rest_day : ℕ
deriving DecidableEq, Repr

/-- `basic_and_rates_from_monthly` (app.py:70-81):
basic = monthly / 2, daily = monthly / 313 * 12, hourly = daily / 8. -/
def basic_and_rates_from_monthly (monthly_salary : ℚ) : ℚ × ℚ × ℚ :=
  let basic_pay := monthly_salary / 2
  let daily_rate := monthly_salary / 313 * 12
  let hourly_rate := daily_rate / 8
  (basic_pay, daily_rate, hourly_rate)

/-! Base multipliers of the `BASE` table (app.py:86-98), written as exact
rationals: 1.00, 1.25, 1.30, 1.69, 1.50, 2.00, 2.60. -/

def BASE_REGULAR : ℚ := 1
def BASE_REGULAR_OT : ℚ := 125/100
def BASE_RESTDAY : ℚ := 130/100
def BASE_RESTDAY_OT : ℚ := 169/100
def BASE_SPECIAL : ℚ := 130/100
def BASE_SPECIAL_OT : ℚ := 169/100
def BASE_SPECIAL_ON_RD : ℚ := 150/100
def BASE_SPECIAL_ON_RD_OT : ℚ := 169/100
def BASE_REGULAR_HOL : ℚ := 2
def BASE_REGULAR_HOL_OT : ℚ := 260/100
def BASE_REGULAR_HOL_ON_RD : ℚ := 260/100

/-- `ND_FACTOR = 1.10` (app.py:99). -/
def ND_FACTOR : ℚ := 110/100

/-- `is_nd_time` (app.py:107-109): night differential when the time is
≥ 22:00 (1320 min) or < 06:00 (360 min). -/
def is_nd_time (m : ℕ) : Bool :=
  decide (1320 ≤ m) || decide (m < 360)

/-- `compute_income_tax_monthly_from_table` (app.py:356-374), on exact
rationals (0.15 = 15/100, 33541.8 = 335418/10, 183541.8 = 1835418/10). -/
def compute_income_tax_monthly_from_table (taxable : ℚ) : ℚ :=
  if taxable ≤ 20833 then 0
  else if taxable ≤ 33333 then 0
  else if taxable ≤ 66667 then 15/100 * max 0 (taxable - 20833)
  else if taxable ≤ 166667 then 1875 + 20/100 * (taxable - 33333)
  else if taxable ≤ 666667 then 335418/10 + 30/100 * (taxable - 166667)
  else 1835418/10 + 35/100 * (taxable - 666667)

/-- The same bracket function with the (always-redundant) `max` of the
third bracket removed: in that branch `taxable > 33333 > 20833`.
Proved equal to the source function in `tax_eq_taxNoMax` below. -/
def taxNoMax (taxable : ℚ) : ℚ :=
  if taxable ≤ 20833 then 0
  else if taxable ≤ 33333 then 0
  else if taxable ≤ 66667 then 15/100 * (taxable - 20833)
  else if taxable ≤ 166667 then 1875 + 20/100 * (taxable - 33333)
  else if taxable ≤ 666667 then 335418/10 + 30/100 * (taxable - 166667)
  else 1835418/10 + 35/100 * (taxable - 666667)

/-- Duration of the chunk `[cursor, nxt)` in hours
(`(nxt - cursor).total_seconds() / 3600`, with minutes as the unit). -/
def chunkHours (cursor nxt : ℕ) : ℚ :=
  ((nxt - cursor : ℕ) : ℚ) / 60

/-- The day-level accumulator dictionary `totals` (app.py:142-151). -/
@[ext]
structure DayTotals where
  chunk_pay : ℚ
  regular_hours : ℚ
  ot_hours : ℚ
  nd_hours : ℚ
  tardiness_minutes : ℚ
  undertime_minutes : ℚ
  absences : ℕ
  days_worked : ℕ
deriving DecidableEq, Repr

/-- All-zero initial accumulator. -/
def initTotals : DayTotals :=
  ⟨0, 0, 0, 0, 0, 0, 0, 0⟩

/-- The common tail of the chunk loop body (app.py:284-299): apply the ND
factor, add the chunk's pay, classify the chunk's hours as OT when the base
multiplier is one of the five OT-tier entries of `BASE`, and count ND
hours. -/
def accumulate (hourly_rate base_mult : ℚ) (nd : Bool) (chunk_hours : ℚ)
    (t : DayTotals) : DayTotals :=
  let final_mult := base_mult * (if nd then ND_FACTOR else 1)
  let chunk_pay := hourly_rate * final_mult * chunk_hours
  let t := { t with chunk_pay := t.chunk_pay + chunk_pay }
  let t :=
    if base_mult = BASE_REGULAR_OT ∨ base_mult = BASE_RESTDAY_OT ∨
        base_mult = BASE_SPECIAL_OT ∨ base_mult = BASE_SPECIAL_ON_RD_OT ∨
        base_mult = BASE_REGULAR_HOL_OT then
      { t with ot_hours := t.ot_hours + chunk_hours }
    else
      { t with regular_hours := t.regular_hours + chunk_hours }
  if nd then { t with nd_hours := t.nd_hours + chunk_hours } else t

/-- One iteration of the 15-minute chunk loop (app.py:204-301) for the
chunk `[cursor, nxt)`. `r` is `restday_hours_counted`; the result pairs
its new value with the updated totals. `chunk_time = cursor.time()` is
`cursor % 1440`; OT on non-rest non-holiday days requires the chunk start
strictly after 19:00 (1140 min). The rest-day branch keeps the source's
8-hour boundary logic, including the proportional straddle split that
bypasses the common tail (`continue`). -/
def processChunk (hourly_rate : ℚ) (is_rest : Bool)
    (holiday_type : Option HolidayType) (cursor nxt : ℕ) (r : ℚ)
    (t : DayTotals) : ℚ × DayTotals :=
  let chunk_hours := chunkHours cursor nxt
  let chunk_time := cursor % 1440
  let nd := is_nd_time chunk_time
  let ot := !is_rest && holiday_type.isNone && decide (1140 < chunk_time)
  match holiday_type with
  | some HolidayType.REGULAR =>
      let base_mult := if ot then BASE_REGULAR_HOL_OT else BASE_REGULAR_HOL
      (r, accumulate hourly_rate base_mult nd chunk_hours t)
  | some HolidayType.SPECIAL =>
      let base_mult :=
        if is_rest then
          if ot then BASE_SPECIAL_ON_RD_OT else BASE_SPECIAL_ON_RD
        else
          if ot then BASE_SPECIAL_OT else BASE_SPECIAL
      (r, accumulate hourly_rate base_mult nd chunk_hours t)
  | none =>
    if is_rest then
      if 8 ≤ r then
        (r + chunk_hours, accumulate hourly_rate BASE_RESTDAY_OT nd chunk_hours t)
      else
        let remain_before_8 := max 0 (8 - r)
        if chunk_hours ≤ remain_before_8 then
          (r + chunk_hours, accumulate hourly_rate BASE_RESTDAY nd chunk_hours t)
        else
          let portion_before := remain_before_8
          let portion_after := chunk_hours - portion_before
          let pay_before0 := hourly_rate * BASE_RESTDAY * portion_before
          let pay_after0 := hourly_rate * BASE_RESTDAY_OT * portion_after
          let pay_before := if nd then pay_before0 * ND_FACTOR else pay_before0
          let pay_after := if nd then pay_after0 * ND_FACTOR else pay_after0
          (r + chunk_hours,
           { t with
              chunk_pay := t.chunk_pay + (pay_before + pay_after),
              regular_hours := t.regular_hours + portion_before,
              ot_hours := t.ot_hours + portion_after,
              nd_hours := t.nd_hours + (if nd then chunk_hours else 0) })
    else
      let base_mult := if ot then BASE_REGULAR_OT else BASE_REGULAR
      (r, accumulate hourly_rate base_mult nd chunk_hours t)

/-- The `while cursor < tout` chunk loop (app.py:202-301). The source
advances `cursor` to `min tout (cursor + 15)`, i.e. by at least one minute
per iteration, so `tout - cursor` minutes of fuel always suffice; the
loop is written structurally on that fuel (callers pass `tout - tin`). -/
def chunkLoop (fuel : ℕ) (hourly_rate : ℚ) (is_rest : Bool)
    (holiday_type : Option HolidayType) (cursor tout : ℕ) (r : ℚ)
    (t : DayTotals) : DayTotals :=
  match fuel with
  | 0 => t
  | fuel + 1 =>
    if cursor < tout then
      let nxt := min tout (cursor + 15)
      let p := processChunk hourly_rate is_rest holiday_type cursor nxt r t
      chunkLoop fuel hourly_rate is_rest holiday_type nxt tout p.1 p.2
    else t

/-- `work_hours_effective` (app.py:184-187): raw duration in hours, minus
the fixed 1-hour unpaid break when the raw duration exceeds 5 hours,
clamped at 0. NOTE: the source computes this value but never reads it
again — the chunk loop runs over the full raw interval. -/
def work_hours_effective (tin tout : ℕ) : ℚ :=
  let work_dur_hours := ((tout - tin : ℕ) : ℚ) / 60
  let e := if 5 < work_dur_hours then work_dur_hours - 1 else work_dur_hours
  if e < 0 then 0 else e

/-- The per-day body of the main loop (app.py:162-301): resolve rest-day
and holiday flags, look up the day's time entry, count an absence when the
entry is missing or one-sided on an ordinary day, else normalize the
worked interval (overnight wrap), record tardiness/undertime on ordinary
days, and run the chunk loop. -/
def processDay (hourly_rate : ℚ) (rest_day : ℕ)
    (holidays : ℕ → Option HolidayType) (entries : List TimeEntry)
    (cur_date : ℕ) (t : DayTotals) : DayTotals :=
  let is_rest := cur_date % 7 == rest_day
  let holiday_type := holidays cur_date
  match entries.find? (fun e => e.date == cur_date) with
  | none =>
      if !is_rest && holiday_type.isNone then
        { t with absences := t.absences + 1 }
      else t
  | some ent =>
    match ent.time_in, ent.time_out with
    | some time_in, some time_out =>
        let t := { t with days_worked := t.days_worked + 1 }
        let tin := time_in
        let tout := if time_out < time_in then time_out + 1440 else time_out
        let _dead := work_hours_effective tin tout
        let t :=
          if decide (540 < time_in) && !is_rest && holiday_type.isNone then
            { t with tardiness_minutes :=
                t.tardiness_minutes + ((time_in - 540 : ℕ) : ℚ) }
          else t
        let t :=
          if decide (time_out < 1080) && !is_rest && holiday_type.isNone then
            { t with undertime_minutes :=
                t.undertime_minutes + ((1080 - time_out : ℕ) : ℚ) }
          else t
        chunkLoop (tout - tin) hourly_rate is_rest holiday_type tin tout 0 t
    | _, _ =>
        if !is_rest && holiday_type.isNone then
          { t with absences := t.absences + 1 }
        else t

/-- The result dictionary of `compute_payroll_for_employee`
(app.py:326-352), before the final 2-decimal display rounding. -/
structure Summary where
  employee_id : ℕ
  employee_name : String
  period_start : ℕ
  period_end : ℕ
  monthly_salary : ℚ
  basic_pay : ℚ
  daily_rate : ℚ
  hourly_rate : ℚ
  regular_hours : ℚ
  ot_hours : ℚ
  nd_hours : ℚ
  days_worked : ℕ
  tardiness_minutes : ℚ
  undertime_minutes : ℚ
  absences : ℕ
  gross_pay : ℚ
  sss : ℚ
  philhealth : ℚ
  pagibig : ℚ
  late_deduction : ℚ
  undertime_deduction : ℚ
  lwop_deduction : ℚ
  income_tax : ℚ
  total_deductions : ℚ
  net_pay : ℚ
deriving DecidableEq, Repr

/-- `compute_payroll_for_employee` (app.py:114-354). The day count is
`(period_end - period_start).days + 1`; with ℕ truncated subtraction
`period_end + 1 - period_start` is 0 exactly when the Python range is
empty (period_end < period_start). The function is total: the source
raises no exception on any input. `monthly_salary * 0.05 if
emp.monthly_salary else 0.0` tests Python truthiness, i.e. salary ≠ 0. -/
def compute_payroll_for_employee (emp : Employee)
    (period_start period_end : ℕ) (entries : List TimeEntry)
    (holidays : ℕ → Option HolidayType) : Summary :=
  let rates := basic_and_rates_from_monthly emp.monthly_salary
  let basic_pay := rates.1
  let daily_rate := rates.2.1
  let hourly_rate := rates.2.2
  let day_count := period_end + 1 - period_start
  let totals := (List.range day_count).foldl
    (fun t i => processDay hourly_rate emp.rest_day holidays entries
      (period_start + i) t) initTotals
  let gross_pay := totals.chunk_pay
  let sss := if emp.monthly_salary ≠ 0 then emp.monthly_salary * (5/100) else 0
  let philhealth :=
    if emp.monthly_salary ≠ 0 then emp.monthly_salary * (25/1000) else 0
  let pagibig : ℚ := 200
  let late_ded := totals.tardiness_minutes / 60 * hourly_rate
  let undertime_ded := totals.undertime_minutes / 60 * hourly_rate
  let lwop_ded := (totals.absences : ℚ) * daily_rate
  let total_deductions0 :=
    sss + philhealth + pagibig + late_ded + undertime_ded + lwop_ded
  let taxable_income := gross_pay - (sss + philhealth + pagibig)
  let income_tax := compute_income_tax_monthly_from_table taxable_income
  let total_deductions := total_deductions0 + income_tax
  let net_pay := gross_pay - total_deductions
  { employee_id := emp.id
    employee_name := emp.name
    period_start := period_start
    period_end := period_end
    monthly_salary := emp.monthly_salary
    basic_pay := basic_pay
    daily_rate := daily_rate
    hourly_rate := hourly_rate
    regular_hours := totals.regular_hours
    ot_hours := totals.ot_hours
    nd_hours := totals.nd_hours
    days_worked := totals.days_worked
    tardiness_minutes := totals.tardiness_minutes
    undertime_minutes := totals.undertime_minutes
    absences := totals.absences
    gross_pay := gross_pay
    sss := sss
    philhealth := philhealth
    pagibig := pagibig
    late_deduction := late_ded
    undertime_deduction := undertime_ded
    lwop_deduction := lwop_ded
    income_tax := income_tax
    total_deductions := total_deductions
    net_pay := net_pay }

theorem tax_eq_taxNoMax (t : ℚ) :
    compute_income_tax_monthly_from_table t = taxNoMax t := by
  unfold compute_income_tax_monthly_from_table taxNoMax
  split_ifs with h1 h2 h3 <;> try rfl
  rw [max_eq_right (by linarith)]

/-- C5: the income-tax function is monotone: for taxable incomes
`t1 < t2`, `income_tax t1 ≤ income_tax t2`. -/
theorem C5_income_tax_monotone (t1 t2 : ℚ) (h : t1 < t2) :
    compute_income_tax_monthly_from_table t1 ≤
      compute_income_tax_monthly_from_table t2 := by
  rw [tax_eq_taxNoMax, tax_eq_taxNoMax]
  unfold taxNoMax
  split_ifs <;> linarith

/-- Witness for C5 at taxable incomes 100 < 30000. -/
theorem C5_income_tax_monotone_witness :
    compute_income_tax_monthly_from_table 100 ≤
      compute_income_tax_monthly_from_table 30000 :=
  C5_income_tax_monotone 100 30000 (by norm_num)

/-- C2 counterexample: the claim "tax at 20,834 is 15% of 1" is false:
the source's second bracket (`taxable <= 33333`) returns 0 there. -/
theorem C2_tax_at_20834_counterexample :
    ¬ (compute_income_tax_monthly_from_table 20833 = 0 ∧
       compute_income_tax_monthly_from_table 20834 = 15/100 * 1) := by
  intro ⟨_, h⟩
  have : compute_income_tax_monthly_from_table 20834 = 0 := by
    unfold compute_income_tax_monthly_from_table
    norm_num
  rw [this] at h
  norm_num at h

/-- C2 amended: the tax function returns 0 at taxable income 20,833 and
also 0 at 20,834 (the zero bracket extends through 33,333); 15% of the
excess over 20,833 is charged only above 33,333. -/
theorem C2_tax_low_brackets :
    compute_income_tax_monthly_from_table 20833 = 0 ∧
    compute_income_tax_monthly_from_table 20834 = 0 ∧
    compute_income_tax_monthly_from_table 33334 = 15/100 * (33334 - 20833) := by
  refine ⟨?_, ?_, ?_⟩ <;>
    · unfold compute_income_tax_monthly_from_table
      norm_num

/-- C8: for every monthly salary S ≥ 0 the rate resolver returns exactly
basic = S/2, daily = S/313*12, hourly = (S/313*12)/8 (it is a total
function dividing only by the nonzero constants 2, 313, 8), and S = 0
yields all-zero rates. -/
theorem C8_rate_formulas (S : ℚ) (hS : 0 ≤ S) :
    basic_and_rates_from_monthly S = (S / 2, S / 313 * 12, S / 313 * 12 / 8) ∧
    basic_and_rates_from_monthly 0 = (0, 0, 0) := by
  constructor
  · rfl
  · unfold basic_and_rates_from_monthly
    norm_num

/-- Witness for C8 at S = 3. -/
theorem C8_rate_formulas_witness :
    basic_and_rates_from_monthly 3 = (3 / 2, 3 / 313 * 12, 3 / 313 * 12 / 8) ∧
    basic_and_rates_from_monthly 0 = (0, 0, 0) :=
  C8_rate_formulas 3 (by norm_num)

/-! Helper lemmas about the chunk-classification tail. -/

theorem accumulate_of_ot (rate base : ℚ) (nd : Bool) (ch : ℚ) (t : DayTotals)
    (hb : base = BASE_REGULAR_OT ∨ base = BASE_RESTDAY_OT ∨ base = BASE_SPECIAL_OT ∨
          base = BASE_SPECIAL_ON_RD_OT ∨ base = BASE_REGULAR_HOL_OT) :
    accumulate rate base nd ch t =
      { t with
        chunk_pay := t.chunk_pay + rate * (base * (if nd then ND_FACTOR else 1)) * ch,
        ot_hours := t.ot_hours + ch,
        nd_hours := t.nd_hours + (if nd then ch else 0) } := by
  unfold accumulate
  simp only [if_pos hb]
  cases nd <;> simp

theorem accumulate_of_not_ot (rate base : ℚ) (nd : Bool) (ch : ℚ) (t : DayTotals)
    (hb : ¬ (base = BASE_REGULAR_OT ∨ base = BASE_RESTDAY_OT ∨ base = BASE_SPECIAL_OT ∨
          base = BASE_SPECIAL_ON_RD_OT ∨ base = BASE_REGULAR_HOL_OT)) :
    accumulate rate base nd ch t =
      { t with
        chunk_pay := t.chunk_pay + rate * (base * (if nd then ND_FACTOR else 1)) * ch,
        regular_hours := t.regular_hours + ch,
        nd_hours := t.nd_hours + (if nd then ch else 0) } := by
  unfold accumulate
  simp only [if_neg hb]
  cases nd <;> simp

theorem restday_not_ot :
    ¬ (BASE_RESTDAY = BASE_REGULAR_OT ∨ BASE_RESTDAY = BASE_RESTDAY_OT ∨
       BASE_RESTDAY = BASE_SPECIAL_OT ∨ BASE_RESTDAY = BASE_SPECIAL_ON_RD_OT ∨
       BASE_RESTDAY = BASE_REGULAR_HOL_OT) := by
  norm_num [BASE_RESTDAY, BASE_REGULAR_OT, BASE_RESTDAY_OT, BASE_SPECIAL_OT,
    BASE_SPECIAL_ON_RD_OT, BASE_REGULAR_HOL_OT]

theorem regular_hol_not_ot :
    ¬ (BASE_REGULAR_HOL = BASE_REGULAR_OT ∨ BASE_REGULAR_HOL = BASE_RESTDAY_OT ∨
       BASE_REGULAR_HOL = BASE_SPECIAL_OT ∨ BASE_REGULAR_HOL = BASE_SPECIAL_ON_RD_OT ∨
       BASE_REGULAR_HOL = BASE_REGULAR_HOL_OT) := by
  norm_num [BASE_REGULAR_HOL, BASE_REGULAR_OT, BASE_RESTDAY_OT, BASE_SPECIAL_OT,
    BASE_SPECIAL_ON_RD_OT, BASE_REGULAR_HOL_OT]

theorem special_not_ot :
    ¬ (BASE_SPECIAL = BASE_REGULAR_OT ∨ BASE_SPECIAL = BASE_RESTDAY_OT ∨
       BASE_SPECIAL = BASE_SPECIAL_OT ∨ BASE_SPECIAL = BASE_SPECIAL_ON_RD_OT ∨
       BASE_SPECIAL = BASE_REGULAR_HOL_OT) := by
  norm_num [BASE_SPECIAL, BASE_REGULAR_OT, BASE_RESTDAY_OT, BASE_SPECIAL_OT,
    BASE_SPECIAL_ON_RD_OT, BASE_REGULAR_HOL_OT]

theorem special_on_rd_not_ot :
    ¬ (BASE_SPECIAL_ON_RD = BASE_REGULAR_OT ∨ BASE_SPECIAL_ON_RD = BASE_RESTDAY_OT ∨
       BASE_SPECIAL_ON_RD = BASE_SPECIAL_OT ∨ BASE_SPECIAL_ON_RD = BASE_SPECIAL_ON_RD_OT ∨
       BASE_SPECIAL_ON_RD = BASE_REGULAR_HOL_OT) := by
  norm_num [BASE_SPECIAL_ON_RD, BASE_REGULAR_OT, BASE_RESTDAY_OT, BASE_SPECIAL_OT,
    BASE_SPECIAL_ON_RD_OT, BASE_REGULAR_HOL_OT]

/-- C7: on a non-holiday rest day, a chunk is split at the 8-hour boundary:
the portion of the chunk before 8 accumulated rest-day hours goes to the
regular bucket at the 1.30x tier, the portion after goes to the OT bucket
at the 1.69x tier, the pay of both portions is multiplied by the ND factor
when the chunk starts in the ND window, and the rest-day hour counter
advances by the whole chunk. -/
theorem C7_restday_eight_hour_split (rate : ℚ) (cursor nxt : ℕ) (r : ℚ)
    (t : DayTotals) :
    processChunk rate true Option.none cursor nxt r t =
      (r + chunkHours cursor nxt,
       { t with
          chunk_pay := t.chunk_pay +
            rate * (BASE_RESTDAY * min (chunkHours cursor nxt) (max 0 (8 - r)) +
                    BASE_RESTDAY_OT *
                      (chunkHours cursor nxt -
                        min (chunkHours cursor nxt) (max 0 (8 - r)))) *
              (if is_nd_time (cursor % 1440) then ND_FACTOR else 1),
          regular_hours := t.regular_hours +
            min (chunkHours cursor nxt) (max 0 (8 - r)),
          ot_hours := t.ot_hours +
            (chunkHours cursor nxt - min (chunkHours cursor nxt) (max 0 (8 - r))),
          nd_hours := t.nd_hours +
            (if is_nd_time (cursor % 1440) then chunkHours cursor nxt else 0) }) := by
  have h0 : (0:ℚ) ≤ chunkHours cursor nxt := by
    unfold chunkHours; positivity
  unfold processChunk
  simp only [Bool.not_true, Bool.false_and, if_true]
  rcases le_or_lt 8 r with h8 | h8
  · simp only [if_pos h8,
      accumulate_of_ot rate BASE_RESTDAY_OT _ _ t (Or.inr (Or.inl rfl))]
    have hmax : max (0:ℚ) (8 - r) = 0 := max_eq_left (by linarith)
    have hmin : min (chunkHours cursor nxt) (0:ℚ) = 0 := min_eq_right h0
    rw [hmax, hmin]
    refine Prod.ext rfl ?_
    ext <;> first | rfl | ring1
  · have hnot : ¬ ((8:ℚ) ≤ r) := not_le.mpr h8
    have hmax : max (0:ℚ) (8 - r) = 8 - r := max_eq_right (by linarith)
    rcases le_or_lt (chunkHours cursor nxt) (max 0 (8 - r)) with hle | hlt
    · simp only [if_neg hnot, if_pos hle,
        accumulate_of_not_ot rate BASE_RESTDAY _ _ t restday_not_ot]
      have hmin : min (chunkHours cursor nxt) (max (0:ℚ) (8 - r)) =
          chunkHours cursor nxt := min_eq_left hle
      rw [hmin]
      refine Prod.ext rfl ?_
      ext <;> first | rfl | ring1
    · simp only [if_neg hnot, if_neg (not_le.mpr hlt)]
      have hmin : min (chunkHours cursor nxt) (max (0:ℚ) (8 - r)) =
          max (0:ℚ) (8 - r) := min_eq_right (le_of_lt hlt)
      rw [hmin]
      cases hnd : is_nd_time (cursor % 1440) <;>
        · refine Prod.ext rfl ?_
          ext <;> first | rfl | ring1 | (simp only [Bool.false_eq_true, if_false,
            if_true, ite_true, ite_false]; ring1)

/-- C6: on a date that is a REGULAR holiday and also the employee's rest
day, every chunk is priced at the plain REGULAR_HOLIDAY non-OT tier
(base multiplier 2.00) and classified regular, not at the distinct
regular-holiday-on-restday multiplier 2.60 that the rate table defines. -/
theorem C6_regular_holiday_on_restday_plain_tier (rate : ℚ) (cursor nxt : ℕ)
    (r : ℚ) (t : DayTotals) :
    processChunk rate true (some HolidayType.REGULAR) cursor nxt r t =
      (r, { t with
        chunk_pay := t.chunk_pay +
          rate * (BASE_REGULAR_HOL *
            (if is_nd_time (cursor % 1440) then ND_FACTOR else 1)) *
          chunkHours cursor nxt,
        regular_hours := t.regular_hours + chunkHours cursor nxt,
        nd_hours := t.nd_hours +
          (if is_nd_time (cursor % 1440) then chunkHours cursor nxt else 0) }) ∧
    BASE_REGULAR_HOL = 2 ∧ BASE_REGULAR_HOL_ON_RD = 26/10 ∧
    BASE_REGULAR_HOL ≠ BASE_REGULAR_HOL_ON_RD := by
  refine ⟨?_, rfl, by norm_num [BASE_REGULAR_HOL_ON_RD],
    by norm_num [BASE_REGULAR_HOL, BASE_REGULAR_HOL_ON_RD]⟩
  unfold processChunk
  simp only [Bool.not_true, Bool.false_and, Bool.false_eq_true, if_false,
    ite_false,
    accumulate_of_not_ot rate BASE_REGULAR_HOL _ _ t regular_hol_not_ot]

/-- C10: on any holiday date (SPECIAL or REGULAR, rest day or not), a chunk
is never assigned an OT-tier base multiplier: its hours go to the regular
bucket, the OT bucket is untouched, and its pay uses the non-OT holiday
multiplier, which differs from all three holiday OT-tier multipliers. -/
theorem C10_holiday_ot_tiers_unreachable (ht : HolidayType) (is_rest : Bool)
    (rate : ℚ) (cursor nxt : ℕ) (r : ℚ) (t : DayTotals) :
    (processChunk rate is_rest (some ht) cursor nxt r t).2.ot_hours = t.ot_hours ∧
    (processChunk rate is_rest (some ht) cursor nxt r t).2.regular_hours =
      t.regular_hours + chunkHours cursor nxt ∧
    (processChunk rate is_rest (some ht) cursor nxt r t).2.chunk_pay =
      t.chunk_pay +
        rate * ((match ht, is_rest with
                 | HolidayType.REGULAR, _ => BASE_REGULAR_HOL
                 | HolidayType.SPECIAL, true => BASE_SPECIAL_ON_RD
                 | HolidayType.SPECIAL, false => BASE_SPECIAL) *
                (if is_nd_time (cursor % 1440) then ND_FACTOR else 1)) *
          chunkHours cursor nxt ∧
    (match ht, is_rest with
     | HolidayType.REGULAR, _ => BASE_REGULAR_HOL
     | HolidayType.SPECIAL, true => BASE_SPECIAL_ON_RD
     | HolidayType.SPECIAL, false => BASE_SPECIAL) ≠ BASE_SPECIAL_OT ∧
    (match ht, is_rest with
     | HolidayType.REGULAR, _ => BASE_REGULAR_HOL
     | HolidayType.SPECIAL, true => BASE_SPECIAL_ON_RD
     | HolidayType.SPECIAL, false => BASE_SPECIAL) ≠ BASE_SPECIAL_ON_RD_OT ∧
    (match ht, is_rest with
     | HolidayType.REGULAR, _ => BASE_REGULAR_HOL
     | HolidayType.SPECIAL, true => BASE_SPECIAL_ON_RD
     | HolidayType.SPECIAL, false => BASE_SPECIAL) ≠ BASE_REGULAR_HOL_OT := by
  cases ht <;> cases is_rest <;>
    refine ⟨?_, ?_, ?_, ?_, ?_, ?_⟩ <;>
      first
      | (unfold processChunk
         simp [accumulate_of_not_ot rate BASE_REGULAR_HOL _ _ t regular_hol_not_ot,
           accumulate_of_not_ot rate BASE_SPECIAL _ _ t special_not_ot,
           accumulate_of_not_ot rate BASE_SPECIAL_ON_RD _ _ t special_on_rd_not_ot])
      | norm_num [BASE_REGULAR_HOL, BASE_SPECIAL, BASE_SPECIAL_ON_RD,
          BASE_SPECIAL_OT, BASE_SPECIAL_ON_RD_OT, BASE_REGULAR_HOL_OT]

/-- C9: a day with no time entry, or an entry missing clock-in or
clock-out, is treated identically to no record: on an ordinary day (not
the rest day, no holiday) the absence count increments by exactly 1 and
nothing else changes; on a rest day or holiday the totals are returned
unchanged — in either case no hours and no pay accrue. -/
theorem C9_absence_policy (rate : ℚ) (rd : ℕ) (hol : ℕ → Option HolidayType)
    (entries : List TimeEntry) (d : ℕ) (t : DayTotals)
    (h : ∀ e, entries.find? (fun e => e.date == d) = some e →
        e.time_in = none ∨ e.time_out = none) :
    processDay rate rd hol entries d t =
      (if !(d % 7 == rd) && (hol d).isNone then
        { t with absences := t.absences + 1 }
      else t) := by
  unfold processDay
  cases hfind : entries.find? (fun e => e.date == d) with
  | none => rfl
  | some e =>
    obtain ⟨ed, ti, tou⟩ := e
    rcases ti with _ | ti
    · rfl
    · rcases tou with _ | tou
      · rfl
      · rcases h _ hfind with h1 | h1 <;> exact absurd h1 (by simp)

/-- Witness for C9: empty entry list, date 0, rest day 1, no holidays. -/
theorem C9_absence_policy_witness :
    processDay 1 1 (fun _ => Option.none) [] 0 initTotals =
      { initTotals with absences := 1 } := by
  have h := C9_absence_policy 1 1 (fun _ => Option.none) [] 0 initTotals
    (by intro e he; simp at he)
  simpa using h

/-- C1 (failing input): salary 15700, ordinary day (date 0, rest day 1,
no holidays), single attendance 09:00-18:00. The raw interval is 9 hours,
so `work_hours_effective` is 8 hours (1-hour break deducted), but the
chunk loop slices the full raw interval: the paid-and-accumulated slice
hours sum to 9, not 8 — the break deduction is computed and then never
applied. -/
theorem C1_sliced_hours_ignore_break_deduction :
    ((compute_payroll_for_employee ⟨1, "emp", 15700, 1⟩ 0 0
        [⟨0, some 540, some 1080⟩] (fun _ => Option.none)).regular_hours +
      (compute_payroll_for_employee ⟨1, "emp", 15700, 1⟩ 0 0
        [⟨0, some 540, some 1080⟩] (fun _ => Option.none)).ot_hours = 9) ∧
    work_hours_effective 540 1080 = 8 ∧ (9 : ℚ) ≠ 8 := by
  refine ⟨?_, ?_, by norm_num⟩
  · with_unfolding_all rfl
  · with_unfolding_all rfl

/-- C3 counterexample: ordinary day clocking 09:00-20:30 yields 1.25 OT
hours, not the 1.5 hours the claim asserts for the span after 19:00: the
slice starting exactly at 19:00 fails the strict `> 19:00` test. -/
theorem C3_ot_not_ninety_minutes :
    (compute_payroll_for_employee ⟨1, "emp", 15700, 1⟩ 0 0
        [⟨0, some 540, some 1230⟩] (fun _ => Option.none)).ot_hours ≠ 3/2 := by
  have h : (compute_payroll_for_employee ⟨1, "emp", 15700, 1⟩ 0 0
      [⟨0, some 540, some 1230⟩] (fun _ => Option.none)).ot_hours = 5/4 := by
    with_unfolding_all rfl
  rw [h]
  norm_num

/-- C3 amended: on an ordinary day, a slice is OT only when it starts
strictly after 19:00. For 09:00-20:30 the five slices from 19:15 onward
(1.25 hours) are OT and the rest (10.25 hours, including 18:00-19:15 and
the slice starting exactly at 19:00) is regular; the slice starting at
19:00 adds nothing to the OT bucket while the slice starting 19:15 adds
a quarter hour. -/
theorem C3_ot_starts_strictly_after_1900 :
    (compute_payroll_for_employee ⟨1, "emp", 15700, 1⟩ 0 0
        [⟨0, some 540, some 1230⟩] (fun _ => Option.none)).ot_hours = 5/4 ∧
    (compute_payroll_for_employee ⟨1, "emp", 15700, 1⟩ 0 0
        [⟨0, some 540, some 1230⟩] (fun _ => Option.none)).regular_hours = 41/4 ∧
    (processChunk (23550/313) false Option.none 1140 1155 0
        initTotals).2.ot_hours = 0 ∧
    (processChunk (23550/313) false Option.none 1155 1170 0
        initTotals).2.ot_hours = 1/4 := by
  refine ⟨?_, ?_, ?_, ?_⟩ <;> with_unfolding_all rfl

/-- C4 counterexample: with period_end (3) before period_start (5) the
computation does not surface any error — it returns an ordinary summary,
here with an empty day range. -/
theorem C4_inverted_period_returns_summary :
    (compute_payroll_for_employee ⟨1, "emp", 15700, 1⟩ 5 3 []
        (fun _ => Option.none)).days_worked = 0 ∧
    (compute_payroll_for_employee ⟨1, "emp", 15700, 1⟩ 5 3 []
        (fun _ => Option.none)).gross_pay = 0 := by
  constructor <;> with_unfolding_all rfl

/-- C4 amended: when period_end precedes period_start the engine raises
nothing: the Python day range is empty, so it returns a normal summary
with zero days worked, zero absences, zero hours and zero gross pay, with
only the salary-based monthly deductions applied (yielding a negative net
pay). -/
theorem C4_inverted_period_empty_range_summary :
    (compute_payroll_for_employee ⟨1, "emp", 15700, 1⟩ 5 3 []
        (fun _ => Option.none)).days_worked = 0 ∧
    (compute_payroll_for_employee ⟨1, "emp", 15700, 1⟩ 5 3 []
        (fun _ => Option.none)).absences = 0 ∧
    (compute_payroll_for_employee ⟨1, "emp", 15700, 1⟩ 5 3 []
        (fun _ => Option.none)).regular_hours = 0 ∧
    (compute_payroll_for_employee ⟨1, "emp", 15700, 1⟩ 5 3 []
        (fun _ => Option.none)).ot_hours = 0 ∧
    (compute_payroll_for_employee ⟨1, "emp", 15700, 1⟩ 5 3 []
        (fun _ => Option.none)).gross_pay = 0 ∧
    (compute_payroll_for_employee ⟨1, "emp", 15700, 1⟩ 5 3 []
        (fun _ => Option.none)).net_pay = -(2755/2) := by
  refine ⟨?_, ?_, ?_, ?_, ?_, ?_⟩ <;> with_unfolding_all rfl
